import Mathlib

/-!
Verification of the metalsmith-blog-starter build configuration.

The repository wires external Metalsmith plugins into an ordered build
pipeline in `metalsmith.js`.  The definitions below embed, from that file:
the `NODE_ENV`-derived production flag, the watch option, the ordered
plugin registration (with the production-only tail), and the build
callback that owns the browser-sync dev server.  The behaviour of the
external plugins themselves (drafts, collections, markdown, permalinks,
layouts, assets, sitemap) is not part of the repository; those
transformations are modelled from the specification's description of the
plugin contract, faithful to its words.
-/

/-- Front-matter and body of one content file: the `draft: true` flag, the
`date` field (ISO dates encoded as YYYYMMDD numbers, which preserves their
chronological order), and the file contents. -/
structure FileData where
  draft : Bool
  date : Nat
  contents : String
  deriving DecidableEq, Repr

/-- The exact string the mode check compares `NODE_ENV` against. -/
def developmentEnv : String := "development"

/-- Another possible `NODE_ENV` value, used in examples. -/
def productionEnv : String := "production"

/-- From metalsmith.js line 86:
`const isProduction = process.env.NODE_ENV !== 'development';`
`none` models an unset `NODE_ENV`. -/
def isProduction (nodeEnv : Option String) : Bool :=
  nodeEnv != some developmentEnv

/-- The directories watched in development, metalsmith.js line 105. -/
def watchedDirectories : List String := ["src", "lib/layouts", "lib/assets"]

/-- From metalsmith.js line 105:
`.watch( isProduction ? false : [ 'src', 'lib/layouts', 'lib/assets' ] )`.
`none` models the literal `false` (no subscription at all). -/
def watchOption (isProd : Bool) : Option (List String) :=
  if isProd then none else some watchedDirectories

/-- Suffix test on path strings, via their character lists. -/
def endsWithStr (s t : String) : Bool := List.isSuffixOf t.data s.data

/-- Start-of-string test on path strings, via their character lists. -/
def startsWithStr (s t : String) : Bool := List.isPrefixOf t.data s.data

/-- Drop the last `n` elements of a list. -/
def dropLastN {α : Type} (l : List α) (n : Nat) : List α :=
  l.take (l.length - n)

/-- Replace the last `n` characters of `s` by `t`. -/
def replaceSuffix (s : String) (n : Nat) (t : String) : String :=
  ⟨dropLastN s.data n ++ t.data⟩

def mdExt : String := ".md"

def htmlExt : String := ".html"

def indexHtml : String := "index.html"

def slashIndexHtml : String := "/index.html"

def sitemapPath : String := "sitemap.xml"

def blogDir : String := "blog/"

def slashChar : Char := '/'

/-- Modelled from the spec: the markdown plugin converts `.md` files to
`.html` files (path rename; the body conversion itself is external). -/
def mdToHtml (p : String) : String :=
  if endsWithStr p mdExt then replaceSuffix p 3 htmlExt else p

/-- Modelled from the spec: the permalinks plugin restructures
`about.html` into `about/index.html`, leaving index files alone. -/
def permalinkOf (p : String) : String :=
  if endsWithStr p htmlExt && !(p == indexHtml) && !(endsWithStr p slashIndexHtml) then
    replaceSuffix p 5 slashIndexHtml
  else p

/-- Modelled from the spec: the glob `blog/*.md` of the collections
configuration — inside the `blog/` directory, no deeper nesting, markdown
extension. -/
def matchesBlogPattern (p : String) : Bool :=
  startsWithStr p blogDir && endsWithStr p mdExt &&
    !((dropLastN (p.data.drop 5) 3).contains slashChar)

/-- Comparison used by the blog collection: ascending front-matter date. -/
def dateLE (a b : String × FileData) : Prop := a.2.date ≤ b.2.date

instance : DecidableRel dateLE := fun a b => Nat.decLe a.2.date b.2.date

instance : IsTotal (String × FileData) dateLE := ⟨fun a b => Nat.le_total a.2.date b.2.date⟩

instance : IsTrans (String × FileData) dateLE := ⟨fun _ _ _ => Nat.le_trans⟩

/-- The `limit: 20` option of the collections configuration,
metalsmith.js line 164. -/
def blogLimit : Nat := 20

/-- Modelled from the spec: the collections plugin groups the files
matching `blog/*.md`, sorts them by the front-matter `date`, reverses
(`reverse: true`, newest first) and keeps at most `limit: 20` entries. -/
def blogCollection (files : List (String × FileData)) : List (String × FileData) :=
  (((files.filter (fun f => matchesBlogPattern f.1)).insertionSort dateLE).reverse).take blogLimit

/-- The in-memory state of one pass: the file map (path, data), the
computed blog collection, and whether global metadata has been merged. -/
structure BuildState where
  files : List (String × FileData)
  blog : List (String × FileData)
  metaLoaded : Bool
  deriving DecidableEq, Repr

/-- Modelled from the spec: `@metalsmith/drafts` removes files with
`draft: true` from the file map unless its boolean argument asks for
drafts to be kept (the starter passes `!isProduction`). -/
def draftsApply (includeDrafts : Bool) (s : BuildState) : BuildState :=
  if includeDrafts then s
  else { s with files := s.files.filter (fun f => !f.2.draft) }

/-- Modelled from the spec: `@metalsmith/metadata` merges the site and
navigation data into the global metadata; the file map is untouched. -/
def metadataApply (s : BuildState) : BuildState := { s with metaLoaded := true }

/-- Modelled from the spec: `@metalsmith/collections` stores the blog
grouping in the global metadata; the file map is untouched. -/
def collectionsApply (s : BuildState) : BuildState := { s with blog := blogCollection s.files }

/-- Modelled from the spec: `@metalsmith/markdown` renames every `.md`
file to `.html` (conversion of the body is external to the repo). -/
def markdownApply (s : BuildState) : BuildState :=
  { s with files := s.files.map (fun f => (mdToHtml f.1, f.2)) }

/-- Modelled from the spec: `@metalsmith/permalinks` rewrites the paths
of html files into directory-style `.../index.html` paths. -/
def permalinksApply (s : BuildState) : BuildState :=
  { s with files := s.files.map (fun f => (permalinkOf f.1, f.2)) }

def layoutHeader : String := "<html><body>"

def layoutFooter : String := "</body></html>"

/-- The template wrapping applied to one file's front-matter record. -/
def applyLayoutData (d : FileData) : FileData :=
  { d with contents := layoutHeader ++ d.contents ++ layoutFooter }

/-- Modelled from the spec: `@metalsmith/layouts` wraps each file's
contents in the template markup; paths are preserved. -/
def layoutsApply (s : BuildState) : BuildState :=
  { s with files := s.files.map (fun f => (f.1, applyLayoutData f.2)) }

/-- Modelled from the spec: `metalsmith-prism` rewrites code blocks
inside file contents in place; paths and the file set are preserved, so
for the present claims it is a contents-preserving step. -/
def prismApply (s : BuildState) : BuildState := s

/-- Modelled from the spec: `metalsmith-static-files` copies the static
asset tree into the build, i.e. adds the asset files to the file map. -/
def assetsApply (assetFiles : List (String × FileData)) (s : BuildState) : BuildState :=
  { s with files := s.files ++ assetFiles }

/-- Modelled from the spec: `metalsmith-optimize-html` minifies HTML
contents in place; paths and the file set are preserved. -/
def htmlOptimizerApply (s : BuildState) : BuildState := s

def sitemapContents : String := "<urlset></urlset>"

def sitemapFileData : FileData := ⟨false, 0, sitemapContents⟩

/-- Modelled from the spec: `metalsmith-sitemap` adds a `sitemap.xml`
file to the file map. -/
def sitemapApply (s : BuildState) : BuildState :=
  { s with files := s.files ++ [(sitemapPath, sitemapFileData)] }

/-- A pipeline step: a plugin name together with its transformation,
which may fail with an error message (the plugin contract of the spec). -/
structure Plugin (σ : Type) where
  name : String
  apply : σ → Except String σ

/-- Modelled from the spec: `Pipeline.run` applies the plugins in list
order, each plugin's output state feeding the next plugin's input, and
stops at the first failure, pairing the error with the failing plugin's
name.  The returned list records the names of the plugins that were
actually invoked, in invocation order. -/
def runPipelineTrace {σ : Type} : List (Plugin σ) → σ → List String × Except (String × String) σ
  | [], s => ([], Except.ok s)
  | p :: ps, s =>
    match p.apply s with
    | Except.ok s2 =>
      let r := runPipelineTrace ps s2
      (p.name :: r.1, r.2)
    | Except.error e => ([p.name], Except.error (p.name, e))

/-- The result of a pass, without the instrumentation trace. -/
def runPipeline {σ : Type} (ps : List (Plugin σ)) (s : σ) : Except (String × String) σ :=
  (runPipelineTrace ps s).2

/-- Output published by a pass: the final state on success, nothing on
failure (no partial output is written). -/
def buildOutput {σ : Type} (ps : List (Plugin σ)) (s : σ) : Option σ :=
  match runPipeline ps s with
  | Except.ok o => some o
  | Except.error _ => none

/-- The plugin chain exactly as registered in metalsmith.js lines
103-247: drafts (with `!isProduction`), metadata, collections, markdown,
permalinks, layouts, prism, assets, and — only when `isProduction` —
htmlOptimizer and sitemap. -/
def configuredPlugins (isProd : Bool) (assetFiles : List (String × FileData)) :
    List (Plugin BuildState) :=
  [⟨"drafts", fun s => Except.ok (draftsApply (!isProd) s)⟩,
   ⟨"metadata", fun s => Except.ok (metadataApply s)⟩,
   ⟨"collections", fun s => Except.ok (collectionsApply s)⟩,
   ⟨"markdown", fun s => Except.ok (markdownApply s)⟩,
   ⟨"permalinks", fun s => Except.ok (permalinksApply s)⟩,
   ⟨"layouts", fun s => Except.ok (layoutsApply s)⟩,
   ⟨"prism", fun s => Except.ok (prismApply s)⟩,
   ⟨"assets", fun s => Except.ok (assetsApply assetFiles s)⟩] ++
  (if isProd then
    [⟨"htmlOptimizer", fun s => Except.ok (htmlOptimizerApply s)⟩,
     ⟨"sitemap", fun s => Except.ok (sitemapApply s)⟩]
   else [])

/-- The sequential composition of the registered plugin transformations,
in registration order, for each mode. -/
def pipelineResult (isProd : Bool) (assetFiles : List (String × FileData)) (s : BuildState) :
    BuildState :=
  let base := assetsApply assetFiles (prismApply (layoutsApply (permalinksApply
    (markdownApply (collectionsApply (metadataApply (draftsApply (!isProd) s)))))))
  if isProd then sitemapApply (htmlOptimizerApply base) else base

/-- What the build callback does to the dev server after one successful
build: nothing, create-and-initialize, or reload. -/
inductive DevAction where
  | noAction
  | init
  | reload
  deriving DecidableEq, Repr

/-- The callback's server-related state: the `devServer` variable
(metalsmith.js line 89) and a count of browser-sync instances ever
created. -/
structure OrchestratorState where
  devServer : Option Unit
  created : Nat
  deriving DecidableEq, Repr

/-- From metalsmith.js lines 270-286: after a successful build, if
`metalsmith.watch()` is truthy, reload an existing server or otherwise
create and initialize one; with watch off, do nothing. -/
def onBuildSuccess (watchActive : Bool) (s : OrchestratorState) : OrchestratorState × DevAction :=
  if watchActive then
    match s.devServer with
    | some _ => (s, DevAction.reload)
    | none => ({ devServer := some (), created := s.created + 1 }, DevAction.init)
  else (s, DevAction.noAction)

/-- At process start `devServer` is null and no instance exists. -/
def initialOrchestrator : OrchestratorState := ⟨none, 0⟩

/-- The orchestrator state after `n` successful builds. -/
def afterSuccessfulBuilds (watchActive : Bool) : Nat → OrchestratorState
  | 0 => initialOrchestrator
  | n + 1 => (onBuildSuccess watchActive (afterSuccessfulBuilds watchActive n)).1

/-- The dev-server action taken by build number `n + 1` (so `n` previous
successful builds have completed). -/
def buildAction (watchActive : Bool) (n : Nat) : DevAction :=
  (onBuildSuccess watchActive (afterSuccessfulBuilds watchActive n)).2

/-- The watch-activity flag of a development run: the registered watch
option, as the build callback observes it through `metalsmith.watch()`. -/
def devWatchActive : Bool := (watchOption (isProduction (some developmentEnv))).isSome

lemma runPipelineTrace_configured (p : Bool) (a : List (String × FileData)) (s : BuildState) :
    runPipelineTrace (configuredPlugins p a) s
      = ((configuredPlugins p a).map Plugin.name, Except.ok (pipelineResult p a s)) := by
  cases p <;> rfl

/-- C2: every pass applies the configured plugins strictly in the declared
registration order — drafts, metadata, collections, markdown, permalinks,
layouts, prism, assets, then in production htmlOptimizer and sitemap —
each plugin's output state feeding the next plugin's input, with no
plugin skipped or reordered. -/
theorem pipeline_applies_plugins_in_declared_order :
    ∀ (isProd : Bool) (assetFiles : List (String × FileData)) (s : BuildState),
      (runPipelineTrace (configuredPlugins isProd assetFiles) s).1
          = (configuredPlugins isProd assetFiles).map Plugin.name
      ∧ (configuredPlugins isProd assetFiles).map Plugin.name
          = ["drafts", "metadata", "collections", "markdown", "permalinks",
             "layouts", "prism", "assets"]
            ++ (if isProd then ["htmlOptimizer", "sitemap"] else [])
      ∧ runPipeline (configuredPlugins isProd assetFiles) s
          = Except.ok (pipelineResult isProd assetFiles s) := by
  intro p a s
  cases p <;> exact ⟨rfl, rfl, rfl⟩

/-- C3: if a plugin fails during a pass, the pipeline halts at that
plugin — the invocation trace covers exactly the plugins up to and
including the failing one — no output is published, and the error
propagated to the caller carries the failing plugin's name. -/
theorem pipeline_fail_fast :
    ∀ {σ : Type} (ps : List (Plugin σ)) (s : σ) (n e : String),
      runPipeline ps s = Except.error (n, e) →
      buildOutput ps s = none ∧
        ∃ pre pl post s2, ps = pre ++ pl :: post
          ∧ pl.name = n
          ∧ runPipeline pre s = Except.ok s2
          ∧ pl.apply s2 = Except.error e
          ∧ (runPipelineTrace ps s).1 = pre.map Plugin.name ++ [n] := by
  intro σ ps
  induction ps with
  | nil =>
    intro s n e h
    simp [runPipeline, runPipelineTrace] at h
  | cons p ps ih =>
    intro s n e h
    refine ⟨by simp [buildOutput, h], ?_⟩
    cases hap : p.apply s with
    | ok s2 =>
      have h2 : runPipeline ps s2 = Except.error (n, e) := by
        simpa [runPipeline, runPipelineTrace, hap] using h
      obtain ⟨-, pre, pl, post, s3, hps, hname, hpre, hfail, htr⟩ := ih s2 n e h2
      refine ⟨p :: pre, pl, post, s3, by rw [hps]; rfl, hname, ?_, hfail, ?_⟩
      · simpa [runPipeline, runPipelineTrace, hap] using hpre
      · simp [runPipelineTrace, hap, htr]
    | error e2 =>
      have h3 : runPipeline (p :: ps) s = Except.error (p.name, e2) := by
        simp [runPipeline, runPipelineTrace, hap]
      rw [h3] at h
      injection h with h4
      have hn : p.name = n := congrArg Prod.fst h4
      have he : e2 = e := congrArg Prod.snd h4
      refine ⟨[], p, ps, s, rfl, hn, rfl, ?_, ?_⟩
      · rw [hap, he]
      · simp [runPipelineTrace, hap, hn]

def boomName : String := "boom"

def boomMessage : String := "exploded"

def incPlugin : Plugin Nat := ⟨"increment", fun k => Except.ok (k + 1)⟩

def failPlugin : Plugin Nat := ⟨boomName, fun _ => Except.error boomMessage⟩

def laterPlugin : Plugin Nat := ⟨"later", fun k => Except.ok (k * 2)⟩

def demoPlugins : List (Plugin Nat) := [incPlugin, failPlugin, laterPlugin]

/-- Concrete instance of the fail-fast theorem: a three-step pipeline
whose second plugin fails stops after two invocations. -/
theorem pipeline_fail_fast_witness :
    buildOutput demoPlugins 0 = none ∧
      ∃ pre pl post s2, demoPlugins = pre ++ pl :: post
        ∧ pl.name = boomName
        ∧ runPipeline pre 0 = Except.ok s2
        ∧ pl.apply s2 = Except.error boomMessage
        ∧ (runPipelineTrace demoPlugins 0).1 = pre.map Plugin.name ++ [boomName] :=
  pipeline_fail_fast demoPlugins 0 boomName boomMessage rfl

/-- C4: the watch option registered on the metalsmith instance subscribes
to directories exactly when the build mode is development; in production
it is the literal `false`, no subscription at all. -/
theorem watch_active_iff_development :
    ∀ (env : Option String),
      ((watchOption (isProduction env)).isSome = true ↔ isProduction env = false)
      ∧ watchOption true = none
      ∧ watchOption false = some watchedDirectories := by
  intro env
  refine ⟨?_, rfl, rfl⟩
  cases h : isProduction env <;> simp [watchOption]

/-- C8: the build mode is computed from `NODE_ENV` alone: the mode is
production exactly when `NODE_ENV` differs from the string
`development`, so an unset variable or any other value means
production. -/
theorem build_mode_from_node_env :
    ∀ (env : Option String),
      (isProduction env = true ↔ ¬(env = some developmentEnv))
      ∧ isProduction none = true
      ∧ isProduction (some productionEnv) = true
      ∧ isProduction (some developmentEnv) = false := by
  intro env
  refine ⟨?_, rfl, by decide, by decide⟩
  simp [isProduction, bne_iff_ne]

def draftPost : String × FileData := (("blog/a-draft.md"), ⟨true, 20240101, "draft body"⟩)

def draftOnlyState : BuildState := ⟨[draftPost], [], false⟩

def draftOutputPath : String := "blog/a-draft/index.html"

/-- C1 counterexample: with `NODE_ENV=development` the pass does NOT omit
the draft-flagged file — the published output of a development pass over a
single `draft: true` file still contains that file (renamed by the
markdown and permalink steps), refuting the claim that a development-mode
pass omits drafts. -/
theorem development_pass_keeps_drafts_counterexample :
    (buildOutput (configuredPlugins (isProduction (some developmentEnv)) []) draftOnlyState).map
        (fun st => st.files.map Prod.fst)
      = some [draftOutputPath] := by
  decide

/-- C1 (amended): the drafts plugin is invoked with `!isProduction`, so
drafts are included exactly when the mode is not production — a
production pass keeps precisely the non-draft files, while a development
pass keeps every file, drafts included. -/
theorem drafts_inclusion_polarity :
    ∀ (env : Option String) (s : BuildState) (f : String × FileData),
      (isProduction env = true →
        (f ∈ (draftsApply (!(isProduction env)) s).files ↔ f ∈ s.files ∧ f.2.draft = false))
      ∧ (isProduction env = false →
          (draftsApply (!(isProduction env)) s).files = s.files) := by
  intro env s f
  constructor
  · intro h
    rw [h]
    simp [draftsApply, List.mem_filter, Bool.not_eq_true']
  · intro h
    rw [h]
    rfl

/-- Concrete instance of the amended draft-polarity theorem: with
`NODE_ENV` unset the mode is production and a draft file is kept only if
its draft flag is off. -/
theorem drafts_inclusion_polarity_witness :
    draftPost ∈ (draftsApply (!(isProduction none)) draftOnlyState).files ↔
      draftPost ∈ draftOnlyState.files ∧ draftPost.2.draft = false :=
  (drafts_inclusion_polarity none draftOnlyState draftPost).1 (by decide)

lemma afterBuilds_watch_eq : ∀ (n : Nat), 1 ≤ n → afterSuccessfulBuilds true n = ⟨some (), 1⟩
  | 1, _ => rfl
  | n + 2, _ => by
    have ih := afterBuilds_watch_eq (n + 1) (by omega)
    show (onBuildSuccess true (afterSuccessfulBuilds true (n + 1))).1 = _
    rw [ih]
    rfl

lemma devWatchActive_eq : devWatchActive = true := by decide

/-- C6: with the watch option of a development run active, at most one
dev-server instance is ever created across any sequence of successful
builds: the first successful build creates and initializes it, and each
later successful build reloads the existing instance instead. -/
theorem dev_server_started_once :
    ∀ (n : Nat),
      (afterSuccessfulBuilds devWatchActive n).created ≤ 1
      ∧ buildAction devWatchActive 0 = DevAction.init
      ∧ (1 ≤ n →
          (afterSuccessfulBuilds devWatchActive n).created = 1
          ∧ (afterSuccessfulBuilds devWatchActive n).devServer = some ()
          ∧ buildAction devWatchActive n = DevAction.reload) := by
  intro n
  simp only [devWatchActive_eq]
  refine ⟨?_, rfl, fun hn => ?_⟩
  · cases n with
    | zero => exact Nat.zero_le 1
    | succ m =>
      rw [afterBuilds_watch_eq (m + 1) (by omega)]
  · refine ⟨by rw [afterBuilds_watch_eq n hn], by rw [afterBuilds_watch_eq n hn], ?_⟩
    unfold buildAction
    rw [afterBuilds_watch_eq n hn]
    rfl

/-- Concrete instance of the idempotent-once theorem: after three
successful builds in watch mode exactly one server instance exists and
the next build reloads it. -/
theorem dev_server_started_once_witness :
    (afterSuccessfulBuilds devWatchActive 3).created = 1
    ∧ (afterSuccessfulBuilds devWatchActive 3).devServer = some ()
    ∧ buildAction devWatchActive 3 = DevAction.reload :=
  (dev_server_started_once 3).2.2 (by omega)

lemma afterBuilds_noWatch : ∀ (n : Nat), afterSuccessfulBuilds false n = initialOrchestrator
  | 0 => rfl
  | n + 1 => by
    show (onBuildSuccess false (afterSuccessfulBuilds false n)).1 = _
    rw [afterBuilds_noWatch n]
    rfl

/-- C7: in production mode the watch option is `false`, so the build
callback's server branch is unreachable: after any number of successful
builds the `devServer` variable is still null, no browser-sync instance
was ever created, and every build takes no server action. -/
theorem no_dev_server_in_production :
    ∀ (env : Option String) (n : Nat), isProduction env = true →
      watchOption (isProduction env) = none
      ∧ afterSuccessfulBuilds ((watchOption (isProduction env)).isSome) n = initialOrchestrator
      ∧ buildAction ((watchOption (isProduction env)).isSome) n = DevAction.noAction := by
  intro env n h
  rw [h]
  refine ⟨rfl, ?_, ?_⟩
  · show afterSuccessfulBuilds false n = initialOrchestrator
    exact afterBuilds_noWatch n
  · show (onBuildSuccess false (afterSuccessfulBuilds false n)).2 = DevAction.noAction
    rw [afterBuilds_noWatch n]
    rfl

/-- Concrete instance of the production no-server theorem: `NODE_ENV`
unset, two successful builds, still no server instance. -/
theorem no_dev_server_in_production_witness :
    watchOption (isProduction none) = none
    ∧ afterSuccessfulBuilds ((watchOption (isProduction none)).isSome) 2 = initialOrchestrator
    ∧ buildAction ((watchOption (isProduction none)).isSome) 2 = DevAction.noAction :=
  no_dev_server_in_production none 2 (by decide)

lemma mdToHtml_eq_sitemapPath {p : String} (h : mdToHtml p = sitemapPath) : p = sitemapPath := by
  unfold mdToHtml at h
  by_cases hc : endsWithStr p mdExt = true
  · rw [if_pos hc] at h
    exfalso
    have hd : dropLastN p.data 3 ++ htmlExt.data = sitemapPath.data := congrArg String.data h
    have hsplit : sitemapPath.data
        = (['s', 'i', 't', 'e', 'm', 'a'] : List Char) ++ ['p', '.', 'x', 'm', 'l'] := by
      decide
    rw [hsplit] at hd
    have hlen : htmlExt.data.length = (['p', '.', 'x', 'm', 'l'] : List Char).length := by decide
    have hss := (List.append_inj' hd hlen).2
    exact absurd hss (by decide)
  · rw [if_neg hc] at h
    exact h

lemma permalinkOf_eq_sitemapPath {p : String} (h : permalinkOf p = sitemapPath) :
    p = sitemapPath := by
  unfold permalinkOf at h
  by_cases hc : (endsWithStr p htmlExt && !(p == indexHtml) && !(endsWithStr p slashIndexHtml))
      = true
  · rw [if_pos hc] at h
    exfalso
    have hd : dropLastN p.data 5 ++ slashIndexHtml.data = sitemapPath.data :=
      congrArg String.data h
    have hd2 : dropLastN p.data 5 ++ slashIndexHtml.data
        = ([] : List Char) ++ sitemapPath.data := by
      rw [List.nil_append]
      exact hd
    have hlen : slashIndexHtml.data.length = sitemapPath.data.length := by decide
    have hss := (List.append_inj' hd2 hlen).2
    exact absurd hss (by decide)
  · rw [if_neg hc] at h
    exact h

/-- C5: the htmlOptimizer and sitemap plugins are registered exactly when
the mode is production; a production pass always emits a `sitemap.xml`
file, while a development pass never introduces one (it can only appear
in development output if the source or asset files already contained
it). -/
theorem production_only_optimizations :
    ∀ (p : Bool) (assetFiles : List (String × FileData)) (s : BuildState),
      (("htmlOptimizer" ∈ (configuredPlugins p assetFiles).map Plugin.name) ↔ p = true)
      ∧ (("sitemap" ∈ (configuredPlugins p assetFiles).map Plugin.name) ↔ p = true)
      ∧ buildOutput (configuredPlugins p assetFiles) s = some (pipelineResult p assetFiles s)
      ∧ (p = true → sitemapPath ∈ (pipelineResult p assetFiles s).files.map Prod.fst)
      ∧ (p = false → sitemapPath ∉ s.files.map Prod.fst →
          sitemapPath ∉ assetFiles.map Prod.fst →
          sitemapPath ∉ (pipelineResult p assetFiles s).files.map Prod.fst) := by
  intro p a s
  refine ⟨?_, ?_, ?_, ?_, ?_⟩
  · cases p <;> simp [configuredPlugins]
  · cases p <;> simp [configuredPlugins]
  · cases p <;> rfl
  · intro hp
    subst hp
    simp [pipelineResult, sitemapApply, htmlOptimizerApply]
  · intro hp hs ha hmem
    subst hp
    have hfiles : (pipelineResult false a s).files
        = ((s.files.map (fun f => (mdToHtml f.1, f.2))).map
            (fun f => (permalinkOf f.1, f.2))).map (fun f => (f.1, applyLayoutData f.2))
          ++ a := rfl
    rw [hfiles, List.map_append, List.mem_append] at hmem
    rcases hmem with hmem | hmem
    · rw [List.map_map, List.map_map, List.map_map] at hmem
      obtain ⟨f, hf, heq⟩ := List.mem_map.mp hmem
      have h1 : permalinkOf (mdToHtml f.1) = sitemapPath := heq
      have h2 : f.1 = sitemapPath := mdToHtml_eq_sitemapPath (permalinkOf_eq_sitemapPath h1)
      exact hs (List.mem_map.mpr ⟨f, hf, h2⟩)
    · exact ha hmem

/-- Concrete instance of the production-only-steps theorem: a production
pass over one file emits `sitemap.xml`; the same development pass does
not. -/
theorem production_only_optimizations_witness :
    (sitemapPath ∈ (pipelineResult true [] draftOnlyState).files.map Prod.fst)
    ∧ (sitemapPath ∉ (pipelineResult false [] draftOnlyState).files.map Prod.fst) :=
  ⟨(production_only_optimizations true [] draftOnlyState).2.2.2.1 rfl,
   (production_only_optimizations false [] draftOnlyState).2.2.2.2 rfl (by decide) (by decide)⟩

/-- C9: two blog posts dated 2024-01-01 and 2024-06-01 (encoded as the
order-preserving numbers 20240101 and 20240601) are grouped with the
June post first — `sortBy: date` with `reverse: true` is newest
first. -/
theorem blog_collection_newest_first :
    ∀ (p1 p2 : String) (d1 d2 : FileData),
      matchesBlogPattern p1 = true → matchesBlogPattern p2 = true →
      d1.date = 20240101 → d2.date = 20240601 →
      blogCollection [(p1, d1), (p2, d2)] = [(p2, d2), (p1, d1)] := by
  intro p1 p2 d1 d2 h1 h2 hd1 hd2
  have hle : dateLE (p1, d1) (p2, d2) := by
    show d1.date ≤ d2.date
    omega
  simp [blogCollection, h1, h2, List.insertionSort, List.orderedInsert, if_pos hle, blogLimit]

def post1Path : String := "blog/first-post.md"

def post2Path : String := "blog/second-post.md"

def post1Data : FileData := ⟨false, 20240101, "older"⟩

def post2Data : FileData := ⟨false, 20240601, "newer"⟩

/-- Concrete instance of the newest-first theorem with two named blog
posts. -/
theorem blog_collection_newest_first_witness :
    blogCollection [(post1Path, post1Data), (post2Path, post2Data)]
      = [(post2Path, post2Data), (post1Path, post1Data)] :=
  blog_collection_newest_first post1Path post2Path post1Data post2Data
    (by decide) (by decide) rfl rfl

/-- C10: the blog grouping holds at most 20 entries — exactly
`min 20 k` where `k` files match `blog/*.md` — every entry matches the
pattern, and any matching file left out of the grouping is no newer than
any file kept in it (only the most recent 20 are kept). -/
theorem blog_collection_cap :
    ∀ (files : List (String × FileData)),
      (blogCollection files).length
          = min blogLimit (files.filter (fun x => matchesBlogPattern x.1)).length
      ∧ (∀ f, f ∈ blogCollection files → matchesBlogPattern f.1 = true)
      ∧ (∀ f g, f ∈ blogCollection files →
          g ∈ files.filter (fun x => matchesBlogPattern x.1) →
          g ∉ blogCollection files → g.2.date ≤ f.2.date) := by
  intro files
  refine ⟨?_, ?_, ?_⟩
  · show ((((files.filter (fun x => matchesBlogPattern x.1)).insertionSort
        dateLE).reverse).take blogLimit).length = _
    rw [List.length_take, List.length_reverse, List.length_insertionSort]
  · intro f hf
    have h2 : f ∈ ((files.filter (fun x => matchesBlogPattern x.1)).insertionSort
        dateLE).reverse := List.mem_of_mem_take hf
    rw [List.mem_reverse, List.mem_insertionSort] at h2
    exact (List.mem_filter.mp h2).2
  · intro f g hf hg hgn
    have hsorted : List.Pairwise dateLE
        ((files.filter (fun x => matchesBlogPattern x.1)).insertionSort dateLE) :=
      List.sorted_insertionSort dateLE (files.filter (fun x => matchesBlogPattern x.1))
    have hrev : List.Pairwise (fun a b => dateLE b a)
        (((files.filter (fun x => matchesBlogPattern x.1)).insertionSort dateLE).reverse) :=
      List.pairwise_reverse.mpr hsorted
    have hsplit := List.take_append_drop blogLimit
      (((files.filter (fun x => matchesBlogPattern x.1)).insertionSort dateLE).reverse)
    have hpw : List.Pairwise (fun a b => dateLE b a)
        ((((files.filter (fun x => matchesBlogPattern x.1)).insertionSort
            dateLE).reverse).take blogLimit
          ++ (((files.filter (fun x => matchesBlogPattern x.1)).insertionSort
            dateLE).reverse).drop blogLimit) := by
      rw [hsplit]
      exact hrev
    have hcross := (List.pairwise_append.mp hpw).2.2
    have hg1 : g ∈ (((files.filter (fun x => matchesBlogPattern x.1)).insertionSort
        dateLE).reverse) := by
      rw [List.mem_reverse, List.mem_insertionSort]
      exact hg
    rw [← hsplit, List.mem_append] at hg1
    have hg3 : g ∈ (((files.filter (fun x => matchesBlogPattern x.1)).insertionSort
        dateLE).reverse).drop blogLimit := hg1.resolve_left hgn
    exact hcross f hf g hg3

def manyPosts : List (String × FileData) :=
  (List.range 21).map (fun i => (("blog/post-" ++ toString i ++ ".md"), ⟨false, i + 1, ""⟩))

def newestPost : String × FileData := (("blog/post-20.md"), ⟨false, 21, ""⟩)

def oldestPost : String × FileData := (("blog/post-0.md"), ⟨false, 1, ""⟩)

/-- Concrete instance of the cap theorem: with 21 matching posts the
grouping keeps 20 of them, and the excluded oldest post is no newer than
the kept newest one. -/
theorem blog_collection_cap_witness :
    (blogCollection manyPosts).length
        = min blogLimit (manyPosts.filter (fun x => matchesBlogPattern x.1)).length
    ∧ oldestPost.2.date ≤ newestPost.2.date :=
  ⟨(blog_collection_cap manyPosts).1,
   (blog_collection_cap manyPosts).2.2 newestPost oldestPost
     (by decide) (by decide) (by decide)⟩
